import Mathlib

/-!
Shallow embedding of the session-adaptation decision engine of the
`intelligent_running_plan` repository (files `src/core/session_adapter.py`,
`src/models/session.py`, `src/models/metrics.py`, `src/config/settings.py`).

Python numbers are modelled by `ℚ` (exact rational arithmetic) and `ℤ`;
Python `int(x)` truncation and `round(x, n)` (round-half-to-even) are
modelled exactly on rationals.  A Python expression that raises at runtime
(the `0.8 <= None` comparison reachable in
`TrainingLoad.get_normalized_score`) is modelled by `Option`: `none` means
the call raises.  Descriptive evidence strings (`details`) appended by the
analyzers carry no decision content and are elided from the embedding.
-/

namespace RunPlan

/-- Python `int(x)` on a rational: truncation toward zero. -/
def pyInt (q : ℚ) : ℤ := if 0 ≤ q then ⌊q⌋ else ⌈q⌉

/-- Round a rational to the nearest integer, ties to even
(the behaviour of Python `round`). -/
def roundHalfEven (q : ℚ) : ℤ :=
  if 2 * q < 2 * ⌊q⌋ + 1 then ⌊q⌋
  else if 2 * ⌊q⌋ + 1 < 2 * q then ⌊q⌋ + 1
  else if ⌊q⌋ % 2 = 0 then ⌊q⌋ else ⌊q⌋ + 1

/-- Python `round(x, n)`: round to `n` decimal digits, ties to even. -/
def pyRound (q : ℚ) (n : ℕ) : ℚ := (roundHalfEven (q * 10 ^ n) : ℚ) / 10 ^ n

/-- Python truthiness of an optional float (`None` and `0.0` are falsy). -/
def truthyQ : Option ℚ → Bool
  | none => false
  | some v => if v = 0 then false else true

/-- Python truthiness of an optional int (`None` and `0` are falsy). -/
def truthyZ : Option ℤ → Bool
  | none => false
  | some v => if v = 0 then false else true

/-! ## `src/models/session.py` -/

/-- `SessionType` (src/models/session.py). -/
inductive SessionType where
  | ENDURANCE | TEMPO | THRESHOLD | INTERVALS | LONG_RUN
  | RECOVERY | RACE | REST | FARTLEK
deriving DecidableEq, Repr

/-- `SessionIntensity` (src/models/session.py). -/
inductive SessionIntensity where
  | VERY_EASY | EASY | MODERATE | HARD | VERY_HARD
deriving DecidableEq, Repr

/-- `SessionStatus` (src/models/session.py). -/
inductive SessionStatus where
  | PLANNED | ADAPTED | COMPLETED | SKIPPED | POSTPONED
deriving DecidableEq, Repr

/-- `PaceZone` (src/models/session.py). -/
structure PaceZone where
  description : String
  duration_minutes : Option ℤ := none
  distance_km : Option ℚ := none
  pace_min_per_km : String
  pace_max_per_km : Option String := none
  hr_zone : Option String := none
  repetitions : ℤ := 1
  recovery_minutes : Option ℚ := none
deriving DecidableEq, Repr

/-- `TrainingSession` (src/models/session.py).  Post-completion actuals and
`created_at`/`updated_at` metadata, unused by the decision engine, are
elided; `completed_at` is a Unix timestamp in seconds.  The Python field
`structure` is spelled `structure_` (`structure` is a Lean keyword). -/
structure TrainingSession where
  id : String
  week_number : ℤ
  day_of_week : ℤ
  session_number : ℤ
  session_type : SessionType
  intensity : SessionIntensity
  title : String
  description : String
  duration_minutes : ℤ
  distance_km : Option ℚ := none
  structure_ : List PaceZone := []
  scheduled_date : Option ℤ := none
  status : SessionStatus := SessionStatus.PLANNED
  adaptation_reason : Option String := none
  original_session_id : Option String := none
  is_key_session : Bool := false
  can_be_postponed : Bool := true
  can_be_replaced : Bool := true
  completed_at : Option ℤ := none
deriving DecidableEq, Repr

/-! ## `src/config/settings.py` -/

/-- The `RECOVERY_THRESHOLDS` dict of src/config/settings.py. -/
structure RecoveryThresholds where
  excellent : ℚ
  good : ℚ
  moderate : ℚ
  poor : ℚ
  very_poor : ℚ
deriving Repr

def RECOVERY_THRESHOLDS : RecoveryThresholds :=
  { excellent := 85, good := 70, moderate := 55, poor := 40, very_poor := 0 }

def ACWR_OPTIMAL_MIN : ℚ := 0.8
def ACWR_OPTIMAL_MAX : ℚ := 1.3

/-! ## `src/core/session_adapter.py`: actions and session mutators -/

/-- `AdaptationAction` (src/core/session_adapter.py). -/
inductive AdaptationAction where
  | MAINTAIN | MONITOR | REDUCE | REPLACE | POSTPONE | CANCEL
deriving DecidableEq, Repr

/-- `SessionAdapter._lighten_session`: deep copy, suffix the id, set
status ADAPTED, truncate duration by the factor, round the top-level
distance to 1 decimal, scale each truthy zone duration (truncating) and
zone distance (2 decimals), demote hard intensities one tier. -/
def lighten_session (session : TrainingSession) (reduction : ℚ) : TrainingSession :=
  let newDuration := pyInt (session.duration_minutes * reduction)
  let newDistance :=
    if truthyQ session.distance_km then
      (session.distance_km.map fun d => pyRound (d * reduction) 1)
    else session.distance_km
  let newStructure := session.structure_.map fun zone =>
    let zd := if truthyZ zone.duration_minutes then
        zone.duration_minutes.map (fun d => pyInt (d * reduction))
      else zone.duration_minutes
    let zk := if truthyQ zone.distance_km then
        zone.distance_km.map (fun d => pyRound (d * reduction) 2)
      else zone.distance_km
    { zone with duration_minutes := zd, distance_km := zk }
  let newIntensity :=
    if session.intensity = SessionIntensity.VERY_HARD then SessionIntensity.HARD
    else if session.intensity = SessionIntensity.HARD then SessionIntensity.MODERATE
    else session.intensity
  { session with
      id := session.id ++ "_adapted"
      status := SessionStatus.ADAPTED
      adaptation_reason :=
        some ("Séance allégée à " ++ toString (pyInt (reduction * 100)) ++ "% du volume")
      duration_minutes := newDuration
      distance_km := newDistance
      structure_ := newStructure
      intensity := newIntensity }

/-- `SessionAdapter._replace_with_easy`: canned active-recovery session. -/
def replace_with_easy (session : TrainingSession) : TrainingSession :=
  let newDuration := min 40 (pyInt (session.duration_minutes * 0.6))
  { session with
      id := session.id ++ "_easy"
      session_type := SessionType.RECOVERY
      intensity := SessionIntensity.EASY
      status := SessionStatus.ADAPTED
      adaptation_reason := some "Séance intense remplacée par récupération active"
      title := "Récupération active (remplace " ++ session.title ++ ")"
      description := "Course facile de récupération"
      duration_minutes := newDuration
      distance_km := some 6.0
      structure_ := [{ description := "Endurance très facile"
                       duration_minutes := some newDuration
                       pace_min_per_km := "6:15"
                       pace_max_per_km := some "6:30"
                       hr_zone := some "70-75% FCmax" }] }

/-! ## `src/models/metrics.py` -/

/-- `SleepQuality` (src/models/metrics.py). -/
inductive SleepQuality where
  | POOR | FAIR | GOOD | EXCELLENT
deriving DecidableEq, Repr

/-- `ReadinessLevel` (src/models/metrics.py). -/
inductive ReadinessLevel where
  | POOR | COMPROMISED | OK | GOOD | OPTIMAL
deriving DecidableEq, Repr

/-- `SleepData` (src/models/metrics.py); only the fields the engine reads. -/
structure SleepData where
  total_sleep_hours : ℚ
  sleep_quality : SleepQuality
  sleep_score : ℤ
deriving DecidableEq, Repr

/-- `SleepData.get_normalized_score`: `min(sleep_score / 100, 1.0)`. -/
def SleepData.get_normalized_score (s : SleepData) : ℚ :=
  min ((s.sleep_score : ℚ) / 100.0) 1.0

/-- `HeartRateVariability` (src/models/metrics.py). -/
structure HeartRateVariability where
  hrv_ms : ℚ
deriving DecidableEq, Repr

/-- `HeartRateVariability.get_normalized_score`. -/
def HeartRateVariability.get_normalized_score
    (h : HeartRateVariability) (baseline_hrv : ℚ) : ℚ :=
  if baseline_hrv = 0 then 0.5
  else min 1.0 (max 0.0 (h.hrv_ms / baseline_hrv))

/-- `RestingHeartRate` (src/models/metrics.py); `rhr_bpm` is validated
`30 < rhr_bpm < 120` at construction, so the division never hits zero. -/
structure RestingHeartRate where
  rhr_bpm : ℤ
deriving DecidableEq, Repr

/-- `RestingHeartRate.get_normalized_score`. -/
def RestingHeartRate.get_normalized_score
    (r : RestingHeartRate) (baseline_rhr : ℤ) : ℚ :=
  if baseline_rhr = 0 then 0.5
  else min 1.0 (max 0.0 ((baseline_rhr : ℚ) / (r.rhr_bpm : ℚ)))

/-- `TrainingLoad` (src/models/metrics.py). -/
structure TrainingLoad where
  acute_load : ℚ := 0.0
  chronic_load : ℚ := 0.0
  acwr : Option ℚ := none
deriving DecidableEq, Repr

/-- `TrainingLoad.calculate_acwr`: returns the (possibly mutated) record and
the returned float.  When `chronic_load == 0` it returns `1.0` WITHOUT
setting `self.acwr`. -/
def TrainingLoad.calculate_acwr (t : TrainingLoad) : TrainingLoad × ℚ :=
  if t.chronic_load = 0 then (t, 1.0)
  else
    let r := pyRound (t.acute_load / t.chronic_load) 2
    ({ t with acwr := some r }, r)

/-- `TrainingLoad.get_normalized_score`.  Python first runs
`if not self.acwr: self.calculate_acwr()` and then compares
`0.8 <= self.acwr`: when `acwr` is still `None` after that call (which
happens exactly when `chronic_load == 0`), the comparison raises a
`TypeError`, modelled here by `none`. -/
def TrainingLoad.get_normalized_score (t : TrainingLoad) :
    Option (TrainingLoad × ℚ) :=
  let t1 := if truthyQ t.acwr then t else (t.calculate_acwr).1
  match t1.acwr with
  | none => none
  | some a =>
      some (t1,
        if 0.8 ≤ a ∧ a ≤ 1.3 then 1.0
        else if a < 0.8 then max 0.0 (a / 0.8)
        else max 0.0 (1.0 - (a - 1.3) / 0.7))

/-- `SubjectiveMetrics` (src/models/metrics.py); fields the scorer reads. -/
structure SubjectiveMetrics where
  motivation : Option ℤ := none
  energy : Option ℤ := none
  mood : Option ℤ := none
  muscle_soreness : Option ℤ := none
deriving DecidableEq, Repr

/-- `SubjectiveMetrics.get_normalized_score`: mean of the truthy sub-scores
(soreness inverted), `0.5` when none is present. -/
def SubjectiveMetrics.get_normalized_score (m : SubjectiveMetrics) : ℚ :=
  let scores : List ℚ :=
    (match m.motivation with
      | some v => if v = 0 then [] else [(v : ℚ) / 5] | none => []) ++
    (match m.energy with
      | some v => if v = 0 then [] else [(v : ℚ) / 5] | none => []) ++
    (match m.mood with
      | some v => if v = 0 then [] else [(v : ℚ) / 5] | none => []) ++
    (match m.muscle_soreness with
      | some v => if v = 0 then [] else [1 - ((v : ℚ) - 1) / 4] | none => [])
  if scores = [] then 0.5 else scores.sum / (scores.length : ℚ)

/-- `DailyMetrics` (src/models/metrics.py); `date`/`created_at` reduced to
an integer, weather fields elided (never read by the engine). -/
structure DailyMetrics where
  date : ℤ := 0
  sleep : Option SleepData := none
  hrv : Option HeartRateVariability := none
  rhr : Option RestingHeartRate := none
  training_load : Option TrainingLoad := none
  subjective : Option SubjectiveMetrics := none
  calendar_busy_hours : ℤ := 0
  available_time_slots : List String := []
  recovery_score : Option ℚ := none
  readiness_level : Option ReadinessLevel := none
deriving DecidableEq, Repr

/-- The `components`/`weights` dicts of `DailyMetrics.calculate_recovery_score`
as an ordered (weight, score) list, plus the possibly-mutated training-load
record; `none` propagates the `TypeError` from
`TrainingLoad.get_normalized_score`. -/
def DailyMetrics.recovery_components (m : DailyMetrics)
    (baseline_hrv : ℚ) (baseline_rhr : ℤ) :
    Option (Option TrainingLoad × List (ℚ × ℚ)) :=
  let sleepPart : List (ℚ × ℚ) := match m.sleep with
    | some s => [((0.35 : ℚ), s.get_normalized_score)] | none => []
  let hrvPart : List (ℚ × ℚ) := match m.hrv with
    | some h => [((0.25 : ℚ), h.get_normalized_score baseline_hrv)] | none => []
  let rhrPart : List (ℚ × ℚ) := match m.rhr with
    | some r => [((0.10 : ℚ), r.get_normalized_score baseline_rhr)] | none => []
  let subjPart : List (ℚ × ℚ) := match m.subjective with
    | some s => [((0.10 : ℚ), s.get_normalized_score)] | none => []
  match m.training_load with
  | none => some (none, sleepPart ++ hrvPart ++ rhrPart ++ subjPart)
  | some t =>
    match t.get_normalized_score with
    | none => none
    | some (t1, ls) =>
        some (some t1,
          sleepPart ++ hrvPart ++ [((0.20 : ℚ), ls)] ++ rhrPart ++ subjPart)

/-- `DailyMetrics.calculate_recovery_score` with explicit baselines
(Python defaults are 50 and 50): weighted sum over present components
renormalized by the total present weight, `round(..., 1)`, neutral `50.0`
when no component is present, then the readiness bands.  Returns the
updated aggregate, `none` when the load component raises. -/
def DailyMetrics.calculate_recovery_score (m : DailyMetrics)
    (baseline_hrv : ℚ) (baseline_rhr : ℤ) : Option DailyMetrics :=
  match m.recovery_components baseline_hrv baseline_rhr with
  | none => none
  | some (tl, comps) =>
    let total_weight := (comps.map Prod.fst).sum
    let rs : ℚ :=
      if total_weight = 0 then 50.0
      else pyRound ((comps.map fun p => p.2 * p.1).sum / total_weight * 100) 1
    let tier :=
      if 85 ≤ rs then ReadinessLevel.OPTIMAL
      else if 70 ≤ rs then ReadinessLevel.GOOD
      else if 55 ≤ rs then ReadinessLevel.OK
      else if 40 ≤ rs then ReadinessLevel.COMPROMISED
      else ReadinessLevel.POOR
    some { m with
            training_load := match tl with
              | some t => some t
              | none => m.training_load
            recovery_score := some rs
            readiness_level := some tier }

/-- `DailyMetrics.has_available_time`:
`(24 - calendar_busy_hours - 8) * 60 >= required_minutes`. -/
def DailyMetrics.has_available_time (m : DailyMetrics)
    (required_minutes : ℤ) : Bool :=
  let available_hours := 24 - m.calendar_busy_hours - 8
  decide (available_hours * 60 ≥ required_minutes)

/-! ## `src/core/session_adapter.py`: analyzers and decision engine -/

/-- `session.intensity in [SessionIntensity.HARD, SessionIntensity.VERY_HARD]`. -/
def isIntenseB (i : SessionIntensity) : Bool :=
  decide (i = SessionIntensity.HARD ∨ i = SessionIntensity.VERY_HARD)

/-- `AdaptationRecommendation` (src/core/session_adapter.py); the purely
descriptive `details` evidence list is elided. -/
structure AdaptationRecommendation where
  action : AdaptationAction
  reason : String
  modified_session : Option TrainingSession := none
  confidence : ℚ := 1.0
deriving Repr

/-- `SessionAdapter._analyze_recovery`: `recovery_score / 100`. -/
def analyze_recovery (recovery_score : ℚ) : ℚ :=
  recovery_score / 100.0

/-- `SessionAdapter._analyze_availability`. -/
def analyze_availability (session : TrainingSession) (metrics : DailyMetrics) : ℚ :=
  if metrics.available_time_slots = [] then 0.5
  else if metrics.has_available_time (session.duration_minutes + 30) then 1.0
  else 0.3

/-- `SessionAdapter._analyze_training_load` (`not metrics.training_load.acwr`
is Python truthiness, so both `None` and `0.0` fall back to 0.7). -/
def analyze_training_load (metrics : DailyMetrics) : ℚ :=
  match metrics.training_load with
  | none => 0.7
  | some t =>
    match t.acwr with
    | none => 0.7
    | some acwr =>
      if acwr = 0 then 0.7
      else if ACWR_OPTIMAL_MIN ≤ acwr ∧ acwr ≤ ACWR_OPTIMAL_MAX then 1.0
      else if acwr < ACWR_OPTIMAL_MIN then 0.9
      else if acwr ≤ 1.5 then 0.6
      else 0.3

/-- Python `timedelta.days` of an elapsed duration given in seconds
(floor division, also for negative durations). -/
def timedeltaDays (seconds : ℤ) : ℤ := Int.fdiv seconds 86400

/-- `SessionAdapter._analyze_sequence`; `now` is the evaluation instant
(`datetime.now()`) as a Unix timestamp in seconds.  The window test is
`(now - completed_at).days <= 2`. -/
def analyze_sequence (now : ℤ) (session : TrainingSession)
    (recent_sessions : Option (List TrainingSession)) : ℚ :=
  match recent_sessions with
  | none => 1.0
  | some rs =>
    if rs = [] then 1.0
    else
      let last_48h := rs.filter fun s =>
        match s.completed_at with
        | none => false
        | some t => decide (timedeltaDays (now - t) ≤ 2)
      let intense_recent := (last_48h.filter fun s => isIntenseB s.intensity).length
      if 2 ≤ intense_recent ∧ isIntenseB session.intensity = true then 0.4
      else if intense_recent = 1 ∧ session.intensity = SessionIntensity.VERY_HARD then 0.7
      else 1.0

/-- The composite score of `SessionAdapter._decide_action`. -/
def composite_score (recovery_factor load_factor sequence_factor availability_factor : ℚ) : ℚ :=
  (recovery_factor * 0.40 +
   load_factor * 0.25 +
   sequence_factor * 0.20 +
   availability_factor * 0.15) * 100

/-- `SessionAdapter._decide_action` (thresholds from `RECOVERY_THRESHOLDS`;
`recovery_score` is a parameter of the Python method but is unused in its
body). -/
def decide_action (session : TrainingSession) (recovery_score : ℚ)
    (recovery_factor availability_factor load_factor sequence_factor : ℚ) :
    AdaptationAction × String × Option TrainingSession :=
  let composite := composite_score recovery_factor load_factor sequence_factor availability_factor
  let threshold_adjust : ℚ := if session.is_key_session then -5 else 0
  if composite ≥ RECOVERY_THRESHOLDS.excellent + threshold_adjust then
    (AdaptationAction.MAINTAIN,
     "✅ Conditions optimales pour la séance planifiée", none)
  else if composite ≥ RECOVERY_THRESHOLDS.good + threshold_adjust then
    (AdaptationAction.MONITOR,
     "👍 Conditions bonnes, surveiller les signes de fatigue pendant la séance", none)
  else if composite ≥ RECOVERY_THRESHOLDS.moderate + threshold_adjust then
    (AdaptationAction.REDUCE,
     "⚠️ Récupération moyenne: séance allégée de 25%",
     some (lighten_session session 0.75))
  else if composite ≥ RECOVERY_THRESHOLDS.poor + threshold_adjust then
    if isIntenseB session.intensity then
      (AdaptationAction.REPLACE,
       "⚠️ Faible récupération: séance intense remplacée par endurance légère",
       some (replace_with_easy session))
    else
      (AdaptationAction.REDUCE,
       "⚠️ Faible récupération: séance allégée de 40%",
       some (lighten_session session 0.6))
  else
    if availability_factor < 0.4 ∧ session.can_be_postponed = true then
      (AdaptationAction.POSTPONE,
       "📅 Conflit d'agenda: reporter la séance à un autre jour", none)
    else
      (AdaptationAction.CANCEL,
       "🛑 Récupération insuffisante: repos complet recommandé", none)

/-- `SessionAdapter._calculate_confidence`: present data points / 5. -/
def calculate_confidence (metrics : DailyMetrics) : ℚ :=
  let data_points : ℚ :=
    (if metrics.sleep.isSome then 1 else 0) +
    (if metrics.hrv.isSome then 1 else 0) +
    (if metrics.training_load.isSome then 1 else 0) +
    (if metrics.available_time_slots = [] then 0 else 1) +
    (if metrics.subjective.isSome then 1 else 0)
  data_points / 5

/-- `SessionAdapter.adapt_session` (the `upcoming_sessions` argument is
never read).  Recomputes the recovery score when unset, then applies
`recovery_score or 50.0` (Python truthiness), runs the four analyzers and
the decision engine.  `none` models the `TypeError` raised while scoring a
zero-chronic-load, unset-ACWR training load. -/
def adapt_session (now : ℤ) (session : TrainingSession) (metrics : DailyMetrics)
    (recent_sessions : Option (List TrainingSession)) :
    Option AdaptationRecommendation :=
  let m1 :=
    if metrics.recovery_score = none then metrics.calculate_recovery_score 50.0 50
    else some metrics
  match m1 with
  | none => none
  | some m =>
    let recovery_score : ℚ := match m.recovery_score with
      | none => 50.0
      | some v => if v = 0 then 50.0 else v
    let recovery_factor := analyze_recovery recovery_score
    let availability_factor := analyze_availability session m
    let load_factor := analyze_training_load m
    let sequence_factor := analyze_sequence now session recent_sessions
    let adsr := decide_action session recovery_score
      recovery_factor availability_factor load_factor sequence_factor
    some { action := adsr.1
           reason := adsr.2.1
           modified_session := adsr.2.2
           confidence := calculate_confidence m }

/-- The minimal `DailyMetrics` synthesized by `quick_adapt`. -/
def quick_metrics (recovery_score : ℚ) (has_time : Bool) : DailyMetrics :=
  let rl :=
    if 85 ≤ recovery_score then ReadinessLevel.OPTIMAL
    else if 70 ≤ recovery_score then ReadinessLevel.GOOD
    else if 55 ≤ recovery_score then ReadinessLevel.OK
    else if 40 ≤ recovery_score then ReadinessLevel.COMPROMISED
    else ReadinessLevel.POOR
  { date := 0
    recovery_score := some recovery_score
    available_time_slots := if has_time then ["18:00-20:00"] else []
    readiness_level := some rl }

/-- `quick_adapt` (src/core/session_adapter.py): adapt with the synthesized
minimal metrics and no histories. -/
def quick_adapt (session : TrainingSession) (recovery_score : ℚ)
    (has_time : Bool) : Option AdaptationRecommendation :=
  adapt_session 0 session (quick_metrics recovery_score has_time) none

/-! ## Concrete inputs used by witnesses and counterexamples -/

/-- A plain non-key moderate session used as a base input. -/
def baseSession : TrainingSession :=
  { id := "S", week_number := 1, day_of_week := 1, session_number := 1,
    session_type := SessionType.ENDURANCE,
    intensity := SessionIntensity.MODERATE,
    title := "Endurance 60min", description := "Course facile",
    duration_minutes := 60 }

/-- A session of 50 minutes and 0.2 km (claim C3's counterexample input). -/
def sessionC3 : TrainingSession :=
  { baseSession with duration_minutes := 50, distance_km := some (2/10) }

/-- Metrics with a training-load record whose `chronic_load` is 0 and whose
`acwr` is unset (claim C4's failing input). -/
def metricsC4 : DailyMetrics :=
  { date := 0,
    training_load := some { acute_load := 100, chronic_load := 0, acwr := none } }

/-- Claim C5's scenario metrics: sleep 4 h with score 30, no HRV, no RHR,
training load with ACWR 1.8, no subjective record, no availability data. -/
def metricsC5 : DailyMetrics :=
  { date := 0,
    sleep := some { total_sleep_hours := 4, sleep_quality := SleepQuality.POOR,
                    sleep_score := 30 },
    training_load := some { acute_load := 180, chronic_load := 100,
                            acwr := some (9/5) } }

/-- A hard session completed 60 hours (216000 s) before evaluation. -/
def sessionC6_old : TrainingSession :=
  { baseSession with intensity := SessionIntensity.HARD,
                     completed_at := some (-216000) }

/-- A very-hard candidate session. -/
def sessionC6_cand : TrainingSession :=
  { baseSession with intensity := SessionIntensity.VERY_HARD }

/-- A 1-minute session (claim C7's failing input). -/
def sessionC7 : TrainingSession := { baseSession with duration_minutes := 1 }

/-- Metrics with only an HRV record of 16.67 ms (claim C2's
counterexample input). -/
def metricsC2 : DailyMetrics := { date := 0, hrv := some { hrv_ms := 1667/100 } }

/-- A 931-minute session (claim C10's counterexample input). -/
def sessionC10 : TrainingSession := { baseSession with duration_minutes := 931 }

/-! ## Claim-side definitions -/

/-- The decision procedure exactly as claim C1 words it: composite
`100 * (0.40*recovery + 0.25*load + 0.20*sequence + 0.15*availability)`,
thresholds 85, 70, 55, 40, each lowered by 5 for a key session, and the
stated action and mutation ladder. -/
def decide_action_claim (session : TrainingSession)
    (recovery load sequence availability : ℚ) :
    AdaptationAction × Option TrainingSession :=
  let composite :=
    100 * (0.40 * recovery + 0.25 * load + 0.20 * sequence + 0.15 * availability)
  let adj : ℚ := if session.is_key_session then -5 else 0
  if composite ≥ 85 + adj then (AdaptationAction.MAINTAIN, none)
  else if composite ≥ 70 + adj then (AdaptationAction.MONITOR, none)
  else if composite ≥ 55 + adj then
    (AdaptationAction.REDUCE, some (lighten_session session 0.75))
  else if composite ≥ 40 + adj then
    if session.intensity = SessionIntensity.HARD ∨
       session.intensity = SessionIntensity.VERY_HARD then
      (AdaptationAction.REPLACE, some (replace_with_easy session))
    else
      (AdaptationAction.REDUCE, some (lighten_session session 0.6))
  else if availability < 0.4 ∧ session.can_be_postponed = true then
    (AdaptationAction.POSTPONE, none)
  else (AdaptationAction.CANCEL, none)

/-- The harshness order of claim C8. -/
def action_severity : AdaptationAction → ℕ
  | AdaptationAction.MAINTAIN => 0
  | AdaptationAction.MONITOR => 1
  | AdaptationAction.REDUCE => 2
  | AdaptationAction.REPLACE => 3
  | AdaptationAction.POSTPONE => 4
  | AdaptationAction.CANCEL => 4

/-- The action component of `decide_action` as a function of the session
flags and the composite score. -/
def action_of (isKey intense canPost : Bool) (availability composite : ℚ) :
    AdaptationAction :=
  let adj : ℚ := if isKey then -5 else 0
  if composite ≥ 85 + adj then AdaptationAction.MAINTAIN
  else if composite ≥ 70 + adj then AdaptationAction.MONITOR
  else if composite ≥ 55 + adj then AdaptationAction.REDUCE
  else if composite ≥ 40 + adj then
    (if intense then AdaptationAction.REPLACE else AdaptationAction.REDUCE)
  else if availability < 0.4 ∧ canPost = true then AdaptationAction.POSTPONE
  else AdaptationAction.CANCEL

/-- The score produced by `TrainingLoad.get_normalized_score` when it does
not raise (0 as a dummy in the raising case). -/
def load_component_value (t : TrainingLoad) : ℚ :=
  match t.get_normalized_score with
  | none => 0
  | some p => p.2

/-- Claim C2's renormalization denominator: the sum of the default weights
of the components present in the aggregate. -/
def claim_weight_total (m : DailyMetrics) : ℚ :=
  (if m.sleep.isSome then 0.35 else 0) +
  (if m.hrv.isSome then 0.25 else 0) +
  (if m.training_load.isSome then 0.20 else 0) +
  (if m.rhr.isSome then 0.10 else 0) +
  (if m.subjective.isSome then 0.10 else 0)

/-- Claim C2's numerator: the weighted sum of the normalized scores of the
present components (default baselines 50/50). -/
def claim_weighted_sum (m : DailyMetrics) : ℚ :=
  (match m.sleep with | some s => 0.35 * s.get_normalized_score | none => 0) +
  (match m.hrv with | some h => 0.25 * h.get_normalized_score 50 | none => 0) +
  (match m.training_load with | some t => 0.20 * load_component_value t | none => 0) +
  (match m.rhr with | some r => 0.10 * r.get_normalized_score 50 | none => 0) +
  (match m.subjective with | some s => 0.10 * s.get_normalized_score | none => 0)

/-- Claim C2's readiness bands. -/
def claim_tier (rs : ℚ) : ReadinessLevel :=
  if 85 ≤ rs then ReadinessLevel.OPTIMAL
  else if 70 ≤ rs then ReadinessLevel.GOOD
  else if 55 ≤ rs then ReadinessLevel.OK
  else if 40 ≤ rs then ReadinessLevel.COMPROMISED
  else ReadinessLevel.POOR

/-- The load component does not raise: a present training-load record has a
set ACWR or a non-zero chronic load (claim C4 exhibits the raising case). -/
def load_defined (m : DailyMetrics) : Prop :=
  ∀ t, m.training_load = some t → (t.acwr ≠ none ∨ t.chronic_load ≠ 0)

/-- `metricsC5` after scoring: recovery 29.5, tier POOR. -/
def metricsC5_scored : DailyMetrics :=
  { metricsC5 with recovery_score := some (59/2),
                   readiness_level := some ReadinessLevel.POOR }

/-! ## Claim theorems -/

/-- C1: for every session and factors in [0,1] (and any value of the unused
`recovery_score` parameter), `_decide_action` returns exactly the
action and modified session described by the claim's threshold ladder. -/
theorem C1_decision_engine (s : TrainingSession) (rs r l q a : ℚ)
    (hr0 : 0 ≤ r) (hr1 : r ≤ 1) (hl0 : 0 ≤ l) (hl1 : l ≤ 1)
    (hq0 : 0 ≤ q) (hq1 : q ≤ 1) (ha0 : 0 ≤ a) (ha1 : a ≤ 1) :
    ((decide_action s rs r a l q).1, (decide_action s rs r a l q).2.2) =
      decide_action_claim s r l q a := by
  unfold decide_action decide_action_claim composite_score isIntenseB RECOVERY_THRESHOLDS
  have hc : (r * 0.40 + l * 0.25 + q * 0.20 + a * 0.15) * 100
      = 100 * (0.40 * r + 0.25 * l + 0.20 * q + 0.15 * a) := by ring
  rw [hc]
  simp only [decide_eq_true_eq]
  split_ifs <;> rfl

/-- Witness for C1 at concrete factors (composite 50, band 4, REDUCE). -/
theorem C1_decision_engine_witness :
    ((decide_action baseSession 0 (1/2) (1/2) (1/2) (1/2)).1,
     (decide_action baseSession 0 (1/2) (1/2) (1/2) (1/2)).2.2) =
      decide_action_claim baseSession (1/2) (1/2) (1/2) (1/2) :=
  C1_decision_engine baseSession 0 (1/2) (1/2) (1/2) (1/2)
    (by norm_num) (by norm_num) (by norm_num) (by norm_num)
    (by norm_num) (by norm_num) (by norm_num) (by norm_num)

lemma decide_action_fst (s : TrainingSession) (rs r a l q : ℚ) :
    (decide_action s rs r a l q).1 =
      action_of s.is_key_session (isIntenseB s.intensity) s.can_be_postponed a
        (composite_score r l q a) := by
  unfold decide_action action_of RECOVERY_THRESHOLDS
  simp only [decide_eq_true_eq]
  split_ifs <;> rfl

/-- C8: with identical factors, a key session never receives a harsher
action than the identical non-key session. -/
theorem C8_key_session_leniency (s : TrainingSession) (rs r a l q : ℚ) :
    action_severity (decide_action { s with is_key_session := true } rs r a l q).1 ≤
      action_severity (decide_action { s with is_key_session := false } rs r a l q).1 := by
  rw [decide_action_fst, decide_action_fst]
  show action_severity (action_of true (isIntenseB s.intensity)
      s.can_be_postponed a (composite_score r l q a)) ≤
    action_severity (action_of false (isIntenseB s.intensity)
      s.can_be_postponed a (composite_score r l q a))
  generalize composite_score r l q a = c
  generalize isIntenseB s.intensity = i
  generalize s.can_be_postponed = p
  unfold action_of
  norm_num
  split_ifs <;> simp only [action_severity] <;> first
    | omega
    | linarith

/-- C9: the availability factor is 0.5 with no availability data, else 1.0
exactly when `(24 - busy - 8) * 60 ≥ duration + 30`, else 0.3. -/
theorem C9_availability_factor (s : TrainingSession) (m : DailyMetrics) :
    analyze_availability s m =
      (if m.available_time_slots = [] then 1/2
       else if (24 - m.calendar_busy_hours - 8) * 60 ≥ s.duration_minutes + 30 then 1
       else 3/10) := by
  unfold analyze_availability DailyMetrics.has_available_time
  split_ifs <;> simp_all <;> norm_num

/-- C3 counterexample: lightening a 50-minute, 0.2 km session by 0.75
gives duration 37, not `round(50*0.75) = 38` (Python `int` truncates), and
top-level distance 0.2 (rounded to ONE decimal), not the
two-decimal 0.15 the claim states. -/
theorem C3_counterexample :
    (lighten_session sessionC3 0.75).duration_minutes = 37 ∧
    roundHalfEven ((sessionC3.duration_minutes : ℚ) * 0.75) = 38 ∧
    (lighten_session sessionC3 0.75).distance_km = some (2/10) ∧
    pyRound ((2/10 : ℚ) * 0.75) 2 = 3/20 ∧ ((2 : ℚ)/10) ≠ 3/20 := by
  refine ⟨?_, ?_, ?_, ?_, ?_⟩ <;>
    norm_num [lighten_session, sessionC3, baseSession, pyInt, pyRound,
      roundHalfEven, truthyQ]

/-- C4 (code bug): on `metricsC4`, `calculate_recovery_score` (and hence
`adapt_session`) raises a `TypeError` (`0.8 <= None` inside
`TrainingLoad.get_normalized_score`), modelled by `none`, instead of
falling back to a neutral default. -/
theorem C4_load_crash :
    metricsC4.calculate_recovery_score 50 50 = none ∧
    (adapt_session 0 baseSession metricsC4 none).isSome = false := by
  constructor <;>
    norm_num [adapt_session, DailyMetrics.calculate_recovery_score,
      DailyMetrics.recovery_components, TrainingLoad.get_normalized_score,
      TrainingLoad.calculate_acwr, truthyQ, metricsC4, baseSession]

/-- C5 counterexample: on the scenario metrics the composite score is 46.8
(recovery 29.5 → factor 0.295, load 0.3, sequence 1.0, availability 0.5),
NOT below 40, and the action for a plain non-key moderate session is
REDUCE, not CANCEL or POSTPONE. -/
theorem C5_counterexample :
    (adapt_session 0 baseSession metricsC5 none).map (fun r => r.action) =
      some AdaptationAction.REDUCE ∧
    (metricsC5.calculate_recovery_score 50 50).map (fun m => m.recovery_score) =
      some (some (59/2)) ∧
    composite_score ((59/2) / 100) (3/10) 1 (1/2) = 468/10 ∧
    ¬ ((468 : ℚ)/10 < 40) := by
  refine ⟨?_, ?_, by norm_num [composite_score], by norm_num⟩
  · norm_num [adapt_session, DailyMetrics.calculate_recovery_score,
      DailyMetrics.recovery_components, SleepData.get_normalized_score,
      TrainingLoad.get_normalized_score, TrainingLoad.calculate_acwr, truthyQ,
      metricsC5, baseSession, pyRound, roundHalfEven, analyze_recovery,
      analyze_availability, DailyMetrics.has_available_time, analyze_training_load,
      analyze_sequence, composite_score, decide_action, RECOVERY_THRESHOLDS,
      ACWR_OPTIMAL_MIN, ACWR_OPTIMAL_MAX, isIntenseB, calculate_confidence,
      lighten_session, pyInt]
    decide
  · norm_num [DailyMetrics.calculate_recovery_score, DailyMetrics.recovery_components,
      SleepData.get_normalized_score, TrainingLoad.get_normalized_score,
      TrainingLoad.calculate_acwr, truthyQ, metricsC5, pyRound, roundHalfEven]

/-- C6 (code bug): a hard session completed 60 hours before evaluation —
more than 48 hours — is still counted by `_analyze_sequence`, because the
code tests `(now - completed_at).days <= 2` (up to just under 72 h), and
the factor becomes 0.7 instead of the documented 1.0. -/
theorem C6_stale_session_counted :
    analyze_sequence 0 sessionC6_cand (some [sessionC6_old]) = 7/10 ∧
    (0 : ℤ) - (-216000) > 48 * 3600 ∧
    analyze_sequence 0 sessionC6_cand (some []) = 1 := by
  refine ⟨?_, by norm_num, ?_⟩ <;>
    norm_num [analyze_sequence, sessionC6_old, sessionC6_cand, baseSession,
      timedeltaDays, isIntenseB, Int.fdiv, List.filter]

/-- C7 (code bug): lightening a 1-minute session by 0.75 or 0.6, or
replacing it with the canned easy session, produces `duration_minutes = 0`,
violating the model's own `duration_minutes > 0` constraint (`Field(gt=0)`)
which `model_copy`-then-assign bypasses. -/
theorem C7_zero_duration :
    sessionC7.duration_minutes = 1 ∧
    (lighten_session sessionC7 0.75).duration_minutes = 0 ∧
    (lighten_session sessionC7 0.6).duration_minutes = 0 ∧
    (replace_with_easy sessionC7).duration_minutes = 0 := by
  refine ⟨rfl, ?_, ?_, ?_⟩ <;>
    norm_num [lighten_session, replace_with_easy, sessionC7, baseSession, pyInt]

/-- C10 counterexample: for a 931-minute session with `has_time = True`
and recovery score 1, the availability factor inside `quick_adapt` is 0.3
(not ≥ 0.5: the day model offers only 960 free minutes, fewer than
931 + 30) and the composite score is 42.4 < 45. -/
theorem C10_counterexample :
    analyze_availability sessionC10 (quick_metrics 1 true) = 3/10 ∧
    ¬ ((1 : ℚ)/2 ≤ 3/10) ∧
    composite_score (analyze_recovery 1)
      (analyze_training_load (quick_metrics 1 true))
      (analyze_sequence 0 sessionC10 none)
      (analyze_availability sessionC10 (quick_metrics 1 true)) = 424/10 ∧
    ¬ ((45 : ℚ) ≤ 424/10) := by
  refine ⟨?_, by norm_num, ?_, by norm_num⟩ <;>
    norm_num [analyze_availability, DailyMetrics.has_available_time, quick_metrics,
      sessionC10, baseSession, composite_score, analyze_recovery,
      analyze_training_load, analyze_sequence]


/-- If the training-load record has a set ACWR or non-zero chronic load,
`get_normalized_score` returns a value, whose score part is
`load_component_value`. -/
lemma load_score_of_defined (t : TrainingLoad)
    (h : t.acwr ≠ none ∨ t.chronic_load ≠ 0) :
    ∃ t1, t.get_normalized_score = some (t1, load_component_value t) := by
  rcases hs : t.get_normalized_score with _ | ⟨t1, v⟩
  · exfalso
    revert hs
    unfold TrainingLoad.get_normalized_score truthyQ TrainingLoad.calculate_acwr
    rcases ha : t.acwr with _ | a
    · rcases h with h | h
      · exact absurd ha h
      · simp [ha, h]
    · by_cases h0 : a = 0
      · by_cases hc : t.chronic_load = 0 <;> simp [ha, h0, hc]
      · simp [ha, h0]
  · exact ⟨t1, by simp [load_component_value, hs]⟩

/-- The components dict of the recovery scorer has exactly the claim's
weights and weighted scores. -/
lemma recovery_components_sums (m : DailyMetrics) (h : load_defined m) :
    ∃ tl comps, m.recovery_components 50 50 = some (tl, comps) ∧
      (comps.map Prod.fst).sum = claim_weight_total m ∧
      (comps.map fun p => p.2 * p.1).sum = claim_weighted_sum m := by
  obtain ⟨dt, sl, hv, rh, tl, sj, cb, slots, rsc, rl⟩ := m
  rcases tl with _ | t
  · rcases sl with _ | s <;> rcases hv with _ | hh <;> rcases rh with _ | rr <;>
      rcases sj with _ | ss
    all_goals refine ⟨_, _, rfl, ?_, ?_⟩
    all_goals simp [DailyMetrics.recovery_components, claim_weight_total,
      claim_weighted_sum]
    all_goals ring
  · obtain ⟨t1, ht⟩ := load_score_of_defined t (h t rfl)
    rcases sl with _ | s <;> rcases hv with _ | hh <;> rcases rh with _ | rr <;>
      rcases sj with _ | ss
    all_goals simp only [DailyMetrics.recovery_components, ht]
    all_goals refine ⟨_, _, rfl, ?_, ?_⟩
    all_goals simp [claim_weight_total, claim_weighted_sum]
    all_goals ring

/-- C2 counterexample: with only an HRV record of 16.67 ms the claim's
unrounded value is 33.34, but the code stores `round(..., 1) = 33.3`:
the claim omits the 1-decimal rounding. -/
theorem C2_counterexample :
    (metricsC2.calculate_recovery_score 50 50).map (fun m => m.recovery_score) =
      some (some (333/10)) ∧
    claim_weighted_sum metricsC2 / claim_weight_total metricsC2 * 100 = 3334/100 ∧
    ((333 : ℚ)/10) ≠ 3334/100 := by
  refine ⟨?_, ?_, by norm_num⟩
  · norm_num [DailyMetrics.calculate_recovery_score, DailyMetrics.recovery_components,
      HeartRateVariability.get_normalized_score, metricsC2, pyRound, roundHalfEven]
  · norm_num [claim_weighted_sum, claim_weight_total, metricsC2,
      HeartRateVariability.get_normalized_score]

/-- C2 (amended): whenever the load component does not raise, the recovery
score is the claim's renormalized weighted sum times 100 ROUNDED TO ONE
DECIMAL (ties to even) — 50 when no component is present — and the
readiness tier follows the claimed bands on that value. -/
theorem C2_amended_recovery_score (m : DailyMetrics) (h : load_defined m) :
    ∃ m', m.calculate_recovery_score 50 50 = some m' ∧
      m'.recovery_score = some (if claim_weight_total m = 0 then 50
        else pyRound (claim_weighted_sum m / claim_weight_total m * 100) 1) ∧
      m'.readiness_level = some (claim_tier (if claim_weight_total m = 0 then 50
        else pyRound (claim_weighted_sum m / claim_weight_total m * 100) 1)) := by
  obtain ⟨tl, comps, hc, hw, hs⟩ := recovery_components_sums m h
  unfold DailyMetrics.calculate_recovery_score
  rw [hc]
  refine ⟨_, rfl, ?_, ?_⟩ <;> simp only [hw, hs, claim_tier] <;> norm_num

/-- Witness for C2 (amended) at `metricsC2`. -/
theorem C2_amended_recovery_score_witness :
    load_defined metricsC2 ∧
    ∃ m', metricsC2.calculate_recovery_score 50 50 = some m' ∧
      m'.recovery_score = some (if claim_weight_total metricsC2 = 0 then 50
        else pyRound (claim_weighted_sum metricsC2 / claim_weight_total metricsC2 * 100) 1) ∧
      m'.readiness_level = some (claim_tier (if claim_weight_total metricsC2 = 0 then 50
        else pyRound (claim_weighted_sum metricsC2 / claim_weight_total metricsC2 * 100) 1)) :=
  ⟨fun t ht => by simp [metricsC2] at ht,
   C2_amended_recovery_score metricsC2 (fun t ht => by simp [metricsC2] at ht)⟩

/-- Python `int` truncation is the floor on nonnegative inputs. -/
lemma pyInt_of_nonneg (q : ℚ) (h : 0 ≤ q) : pyInt q = ⌊q⌋ := by
  unfold pyInt
  exact if_pos h

/-- Rounding zero gives zero. -/
lemma pyRound_zero (n : ℕ) : pyRound 0 n = 0 := by
  norm_num [pyRound, roundHalfEven]

/-- C3 (amended): lightening with factor 0.75 yields duration
`⌊old * 0.75⌋` (truncation, not `round`), status ADAPTED, top-level
distance rounded to ONE decimal, every PaceZone duration truncated and
PaceZone distance rounded to two decimals, and the stated intensity
demotion — for sessions with nonnegative durations. -/
theorem C3_amended_lighten (s : TrainingSession)
    (hd : 0 ≤ s.duration_minutes)
    (hz : ∀ z ∈ s.structure_, ∀ d, z.duration_minutes = some d → 0 ≤ d) :
    (lighten_session s 0.75).duration_minutes = ⌊(s.duration_minutes : ℚ) * 0.75⌋ ∧
    (lighten_session s 0.75).status = SessionStatus.ADAPTED ∧
    (lighten_session s 0.75).distance_km =
      s.distance_km.map (fun d => pyRound (d * 0.75) 1) ∧
    (lighten_session s 0.75).structure_ = s.structure_.map (fun z =>
      { z with
          duration_minutes := z.duration_minutes.map (fun d => ⌊(d : ℚ) * 0.75⌋),
          distance_km := z.distance_km.map (fun d => pyRound (d * 0.75) 2) }) ∧
    (lighten_session s 0.75).intensity =
      (if s.intensity = SessionIntensity.VERY_HARD then SessionIntensity.HARD
       else if s.intensity = SessionIntensity.HARD then SessionIntensity.MODERATE
       else s.intensity) := by
  unfold lighten_session
  refine ⟨?_, rfl, ?_, ?_, rfl⟩
  · exact pyInt_of_nonneg _ (by positivity)
  · rcases s.distance_km with _ | d
    · rfl
    · by_cases h0 : d = 0
      · simp [truthyQ, h0, pyRound_zero]
      · simp [truthyQ, h0]
  · refine List.map_congr_left ?_
    intro z hzz
    have hdz := hz z hzz
    rcases hzd : z.duration_minutes with _ | d
    · rcases hzk : z.distance_km with _ | k
      · simp [truthyZ, truthyQ, hzd, hzk]
      · by_cases hk0 : k = 0
        · simp [truthyZ, truthyQ, hzd, hzk, hk0, pyRound_zero]
        · simp [truthyZ, truthyQ, hzd, hzk, hk0]
    · have hd0 := hdz d hzd
      rcases hzk : z.distance_km with _ | k
      · by_cases hdd : d = 0
        · simp [truthyZ, truthyQ, hzd, hzk, hdd]
        · simp [truthyZ, truthyQ, hzd, hzk, hdd,
            pyInt_of_nonneg _ (by positivity : (0:ℚ) ≤ (d:ℚ) * 0.75)]
      · by_cases hdd : d = 0 <;> by_cases hk0 : k = 0 <;>
          simp [truthyZ, truthyQ, hzd, hzk, hdd, hk0, pyRound_zero,
            pyInt_of_nonneg _ (by positivity : (0:ℚ) ≤ (d:ℚ) * 0.75)]


/-- Witness for C3 (amended) at the 50-minute session. -/
theorem C3_amended_lighten_witness :
    0 ≤ sessionC3.duration_minutes ∧
    ((lighten_session sessionC3 0.75).duration_minutes =
        ⌊(sessionC3.duration_minutes : ℚ) * 0.75⌋ ∧
     (lighten_session sessionC3 0.75).status = SessionStatus.ADAPTED ∧
     (lighten_session sessionC3 0.75).distance_km =
       sessionC3.distance_km.map (fun d => pyRound (d * 0.75) 1) ∧
     (lighten_session sessionC3 0.75).structure_ = sessionC3.structure_.map (fun z =>
       { z with
           duration_minutes := z.duration_minutes.map (fun d => ⌊(d : ℚ) * 0.75⌋),
           distance_km := z.distance_km.map (fun d => pyRound (d * 0.75) 2) }) ∧
     (lighten_session sessionC3 0.75).intensity =
       (if sessionC3.intensity = SessionIntensity.VERY_HARD then SessionIntensity.HARD
        else if sessionC3.intensity = SessionIntensity.HARD then SessionIntensity.MODERATE
        else sessionC3.intensity)) :=
  ⟨by norm_num [sessionC3, baseSession],
   C3_amended_lighten sessionC3 (by norm_num [sessionC3, baseSession])
     (fun z hzz => by simp [sessionC3, baseSession] at hzz)⟩


/-- C5 (amended): on the Scenario-2 metrics the composite is 46.8 — in the
poor band [40, 55), not below 40 — so any non-key session gets REPLACE if
hard/very-hard, else REDUCE, never CANCEL or POSTPONE. -/
theorem C5_amended_action (s : TrainingSession) (hk : s.is_key_session = false) :
    (adapt_session 0 s metricsC5 none).map (fun r => r.action) =
      some (if isIntenseB s.intensity then AdaptationAction.REPLACE
            else AdaptationAction.REDUCE) := by
  have hm : metricsC5.calculate_recovery_score 50.0 50 = some metricsC5_scored := by
    norm_num [DailyMetrics.calculate_recovery_score, DailyMetrics.recovery_components,
      SleepData.get_normalized_score, TrainingLoad.get_normalized_score,
      TrainingLoad.calculate_acwr, truthyQ, metricsC5, metricsC5_scored,
      pyRound, roundHalfEven]
  unfold adapt_session
  rw [if_pos (show metricsC5.recovery_score = none from rfl), hm]
  simp only [metricsC5_scored, metricsC5, analyze_recovery, analyze_availability,
    DailyMetrics.has_available_time, analyze_training_load, analyze_sequence,
    calculate_confidence, ACWR_OPTIMAL_MIN, ACWR_OPTIMAL_MAX]
  norm_num
  rw [decide_action_fst]
  unfold action_of composite_score
  rw [hk]
  norm_num


/-- Above composite 40 the engine never postpones or cancels. -/
lemma action_of_high (k i p : Bool) (a c : ℚ) (hc : 40 ≤ c) :
    action_of k i p a c = AdaptationAction.MAINTAIN ∨
    action_of k i p a c = AdaptationAction.MONITOR ∨
    action_of k i p a c = AdaptationAction.REDUCE ∨
    action_of k i p a c = AdaptationAction.REPLACE := by
  unfold action_of
  rcases k <;> rcases i <;> norm_num <;> split_ifs <;> simp_all <;> linarith



/-- C10 (amended): `quick_adapt` always returns a recommendation whose
action is MAINTAIN, MONITOR, REDUCE, or REPLACE (never POSTPONE/CANCEL):
load factor 0.7, sequence factor 1.0, availability factor at least 0.3 and
recovery factor at least 0 keep the composite at or above 42, above the
(possibly key-adjusted) poor threshold. -/
theorem C10_amended_actions (s : TrainingSession) (r : ℚ) (ht : Bool)
    (h0 : 0 ≤ r) (h1 : r ≤ 100) :
    ∃ rec, quick_adapt s r ht = some rec ∧
      (rec.action = AdaptationAction.MAINTAIN ∨
       rec.action = AdaptationAction.MONITOR ∨
       rec.action = AdaptationAction.REDUCE ∨
       rec.action = AdaptationAction.REPLACE) := by
  unfold quick_adapt adapt_session
  rw [if_neg (show ¬ ((quick_metrics r ht).recovery_score = none) from by
    simp [quick_metrics])]
  refine ⟨_, rfl, ?_⟩
  dsimp only
  rw [decide_action_fst]
  apply action_of_high
  have hrv : (0:ℚ) ≤ (match (quick_metrics r ht).recovery_score with
      | none => (50.0:ℚ)
      | some v => if v = 0 then 50.0 else v) := by
    simp only [quick_metrics]
    split_ifs <;> norm_num [h0]
  have hlf : analyze_training_load (quick_metrics r ht) = 0.7 := by
    simp [analyze_training_load, quick_metrics]
  have hsf : analyze_sequence 0 s none = 1 := by
    norm_num [analyze_sequence]
  have haf : (3/10:ℚ) ≤ analyze_availability s (quick_metrics r ht) := by
    unfold analyze_availability
    split_ifs <;> norm_num
  rw [hlf, hsf]
  unfold composite_score analyze_recovery
  set x := (match (quick_metrics r ht).recovery_score with
      | none => (50.0:ℚ)
      | some v => if v = 0 then 50.0 else v) with hx
  set af := analyze_availability s (quick_metrics r ht) with haf2
  have : (0:ℚ) ≤ x / 100.0 := by positivity
  nlinarith [this, haf]

/-- Witness for C5 (amended) at the base non-key moderate session. -/
theorem C5_amended_action_witness :
    baseSession.is_key_session = false ∧
    (adapt_session 0 baseSession metricsC5 none).map (fun r => r.action) =
      some (if isIntenseB baseSession.intensity then AdaptationAction.REPLACE
            else AdaptationAction.REDUCE) :=
  ⟨rfl, C5_amended_action baseSession rfl⟩

/-- Witness for C10 (amended) at recovery score 50 with time available. -/
theorem C10_amended_actions_witness :
    (0:ℚ) ≤ 50 ∧ (50:ℚ) ≤ 100 ∧
    ∃ rec, quick_adapt baseSession 50 true = some rec ∧
      (rec.action = AdaptationAction.MAINTAIN ∨
       rec.action = AdaptationAction.MONITOR ∨
       rec.action = AdaptationAction.REDUCE ∨
       rec.action = AdaptationAction.REPLACE) :=
  ⟨by norm_num, by norm_num,
   C10_amended_actions baseSession 50 true (by norm_num) (by norm_num)⟩

end RunPlan
